import Mathlib

/-!
Verification development for the Multilingual Translation Platform
(`src/app.py`). The Python program is shallowly embedded: Python `str`
values become `List Char`, JSON values become the `Json` inductive,
fallible Python code returns `Except PyError`, and the outcomes of the
HTTP calls made through the `requests` library are supplied as explicit
parameters (the library is an external collaborator: it either yields a
response with a status code and a parsed body, or fails with a
`RequestException`).
-/

/-- A Python string, embedded as its list of Unicode scalar values. -/
abbrev PyStr := List Char

/-- The error values the embedded program can raise.
`translationError s` is the `Exception("Translation error: {s}")` raised at
`app.py:126`; `httpError s` is the `requests.HTTPError` raised by
`raise_for_status()` for a response with status `s` (which `requests`
raises exactly when `400 ≤ s < 600`); `keyError` / `indexError` /
`typeError` are the exceptions raised by subscripting a `dict` with a
missing key, a `list` out of range, or a non-subscriptable value;
`connectionError` stands for a `requests.RequestException` raised before
any response was obtained; `attributeError` is raised by calling a `str`
method on a non-`str` value; `parseError` stands for the exception
`docx.Document` raises on an invalid byte stream. -/
inductive PyError where
  | translationError (status : Nat)
  | httpError (status : Nat)
  | keyError (key : String)
  | indexError
  | typeError
  | connectionError
  | attributeError
  | parseError
deriving DecidableEq, Repr

/-- A parsed JSON value, as returned by `response.json()`. -/
inductive Json where
  | null
  | bool (b : Bool)
  | num (q : Rat)
  | str (s : PyStr)
  | arr (items : List Json)
  | obj (fields : List (String × Json))

/-- Python subscripting `j[i]` with an integer index: on a list it returns
the `i`-th element or raises `IndexError`; on anything else (for the shapes
arising here) it raises `TypeError`. -/
def Json.index (j : Json) (i : Nat) : Except PyError Json :=
  match j with
  | .arr items =>
    match items.get? i with
    | some x => .ok x
    | none => .error .indexError
  | _ => .error .typeError

/-- Python subscripting `j["k"]` with a string key: on a dict it returns the
value at `k` or raises `KeyError(k)`; on anything else it raises
`TypeError`. -/
def Json.field (j : Json) (k : String) : Except PyError Json :=
  match j with
  | .obj fields =>
    match fields.lookup k with
    | some v => .ok v
    | none => .error (.keyError k)
  | _ => .error (.typeError)

/-- Whether an error is the `Exception("Translation error: ...")` kind
raised by `DocumentsTranslator.translate_text`. -/
def PyError.isTranslationError : PyError → Bool
  | .translationError _ => true
  | _ => false

/-- Whether an error carries an HTTP status code (the errors from which the
HTTP status can be logged). -/
def PyError.carriesHttpStatus : PyError → Bool
  | .translationError _ => true
  | .httpError _ => true
  | _ => false

/-- Whether an error is one of the Python subscripting exceptions
(KeyError, IndexError, TypeError). -/
def PyError.isSubscriptError : PyError → Bool
  | .keyError _ => true
  | .indexError => true
  | .typeError => true
  | _ => false

/-- Python `s.split("\n")`: splits on every newline character; `K` newline
characters yield `K + 1` segments, and the empty string yields `[""]`. -/
def pySplitNl : PyStr → List PyStr
  | [] => [[]]
  | c :: cs =>
    if c = '\n' then [] :: pySplitNl cs
    else
      match pySplitNl cs with
      | [] => [[c]]
      | l :: ls => (c :: l) :: ls

/-- Python `"\n".join(xs)`. -/
def pyJoinNl (xs : List PyStr) : PyStr :=
  List.intercalate ['\n'] xs

/-- A paragraph of a `python-docx` document; only its text matters here. -/
structure Paragraph where
  text : PyStr
deriving DecidableEq, Repr

/-- A `python-docx` `Document`: an ordered sequence of paragraphs. -/
structure PyDocument where
  paragraphs : List Paragraph
deriving DecidableEq, Repr

/-- `docx.Document()` with no argument: the default template, which has no
paragraphs. -/
def PyDocument.new : PyDocument := ⟨[]⟩

/-- `doc.add_paragraph(t)`: appends a paragraph with text `t`. -/
def PyDocument.add_paragraph (d : PyDocument) (t : PyStr) : PyDocument :=
  ⟨d.paragraphs ++ [⟨t⟩]⟩

/-- Lines 286–288 of `app.py`: `translated_doc = Document()` followed by
`for line in translation.split("\n"): translated_doc.add_paragraph(line)`. -/
def buildTranslatedDoc (translation : PyStr) : PyDocument :=
  (pySplitNl translation).foldl PyDocument.add_paragraph PyDocument.new

/-- Lines 272–274 of `app.py`, the extraction part:
`[paragraph.text for paragraph in doc.paragraphs]`. -/
def extractParagraphTexts (d : PyDocument) : List PyStr :=
  d.paragraphs.map Paragraph.text

/-! ## HTML model and the web-article extractor (lines 41–54) -/

mutual
/-- A node of the parsed HTML tree built by BeautifulSoup: either a text
node or an element with a tag and children. -/
inductive HNode where
  | text (s : PyStr)
  | elem (tag : String) (children : HForest)
/-- An ordered sequence of sibling HTML nodes. -/
inductive HForest where
  | nil
  | cons (n : HNode) (f : HForest)
end

/-- Whether a node is one of the elements matched by
`soup(["script", "style"])`. -/
def isScriptOrStyle : HNode → Bool
  | .text _ => false
  | .elem tag _ => tag = "script" || tag = "style"

mutual
/-- Effect of the decompose loop (lines 47–48) on a single kept node:
script/style elements are removed from its children at every depth. -/
def scrubNode : HNode → HNode
  | .text s => .text s
  | .elem tag cs => .elem tag (scrubForest cs)
/-- Effect of the decompose loop (lines 47–48) on a sequence of siblings. -/
def scrubForest : HForest → HForest
  | .nil => .nil
  | .cons n f =>
    if isScriptOrStyle n then scrubForest f
    else .cons (scrubNode n) (scrubForest f)
end

mutual
/-- All text-node strings of a node, in document order (BeautifulSoup's
`_all_strings`). -/
def nodeTexts : HNode → List PyStr
  | .text s => [s]
  | .elem _ cs => forestTexts cs
/-- All text-node strings of a sibling sequence, in document order. -/
def forestTexts : HForest → List PyStr
  | .nil => []
  | .cons n f => nodeTexts n ++ forestTexts f
end

/-- Python `s.strip()`: removes leading and trailing whitespace. -/
def pyStrip (s : PyStr) : PyStr :=
  ((s.dropWhile Char.isWhitespace).reverse.dropWhile Char.isWhitespace).reverse

/-- BeautifulSoup `soup.get_text(" ", strip=True)`: each text-node string
is stripped, whitespace-only strings are dropped, and the remainder are
joined with single spaces. -/
def soupGetTextStrip (doc : HForest) : PyStr :=
  List.intercalate [' '] (((forestTexts doc).map pyStrip).filter (· ≠ []))

/-- Lines 46–50 of `app.py`: parse, decompose all script/style elements,
then `soup.get_text(" ", strip=True)`. -/
def extractHtmlText (doc : HForest) : PyStr :=
  soupGetTextStrip (scrubForest doc)

mutual
/-- Modelled from the spec (section 4.1): the visible text nodes of a node,
where script and style elements are skipped entirely so that their contents
never appear in the output. -/
def specVisibleNode : HNode → List PyStr
  | .text s => [s]
  | .elem tag cs =>
    if tag = "script" ∨ tag = "style" then [] else specVisibleForest cs
/-- Modelled from the spec (section 4.1): visible text nodes of a sibling
sequence. -/
def specVisibleForest : HForest → List PyStr
  | .nil => []
  | .cons n f => specVisibleNode n ++ specVisibleForest f
end

/-- Outcome of `requests.get(url)` as observed by the program: either a
response (with its status code and parsed HTML body), or a
`requests.RequestException` (network failure). -/
inductive FetchOutcome where
  | response (status : Nat) (doc : HForest)
  | failure

/-- `ArticlesTranslator.extract_text` (lines 41–54): fetch the URL;
`raise_for_status()` raises `requests.HTTPError` exactly when the status is
in 400–599; otherwise parse, decompose script/style, and return
`soup.get_text(" ", strip=True)`. The `except requests.RequestException`
clause logs and re-raises the same exception unchanged. -/
def ArticlesTranslator.extract_text : FetchOutcome → Except PyError PyStr
  | .failure => .error .connectionError
  | .response status doc =>
    if 400 ≤ status ∧ status < 600 then .error (.httpError status)
    else .ok (extractHtmlText doc)

/-! ## Translation clients (lines 56–93 and 104–126) -/

/-- Outcome of a `requests.post` call as observed by the program: either a
response (status code and parsed JSON body), or a
`requests.RequestException` (network failure before any response). -/
inductive PostOutcome where
  | response (status : Nat) (body : Json)
  | failure

/-- Lines 62–83 of `app.py`: the request payload built by
`ArticlesTranslator.translate_text` from the input text and the
target-language label. -/
def articlePayload (text target_language : PyStr) : Json :=
  .obj [
    ("messages", .arr [
      .obj [
        ("role", .str "system".data),
        ("content", .arr [
          .obj [("type", .str "text".data),
                ("text", .str "You act as a text translator".data)]])],
      .obj [
        ("role", .str "user".data),
        ("content", .arr [
          .obj [("type", .str "text".data),
                ("text", .str ("translate: ".data ++ text ++ " to ".data
                  ++ target_language
                  ++ " language and respond only with the translation in markdown format".data))]])]]),
    ("temperature", .num (9 / 10)),
    ("top_p", .num (95 / 100)),
    ("max_tokens", .num 900)]

/-- Line 89 of `app.py`: the extraction
`response.json()["choices"][0]["message"]["content"]`, whose subscript
failures (KeyError/IndexError/TypeError) are not `RequestException`s and
propagate uncaught. -/
def articleResponsePath (body : Json) : Except PyError Json := do
  let choices ← body.field "choices"
  let c0 ← choices.index 0
  let msg ← c0.field "message"
  msg.field "content"

/-- Lines 85–93 of `app.py`: POST the payload; `raise_for_status()` raises
`requests.HTTPError` exactly when the status is in 400–599 (the `except
requests.RequestException` clause logs and re-raises it unchanged);
otherwise extract the content along `articleResponsePath`. -/
def ArticlesTranslator.translate_text (text target_language : PyStr)
    (send : Json → PostOutcome) : Except PyError Json :=
  match send (articlePayload text target_language) with
  | .failure => .error .connectionError
  | .response status body =>
    if 400 ≤ status ∧ status < 600 then .error (.httpError status)
    else articleResponsePath body

/-- Line 118 of `app.py`: the request body `[{"text": text}]` sent by
`DocumentsTranslator.translate_text`. -/
def docRequestBody (text : PyStr) : Json :=
  .arr [.obj [("text", .str text)]]

/-- Line 124 of `app.py`: the extraction
`response.json()[0]["translations"][0]["text"]`, whose subscript failures
propagate as KeyError/IndexError/TypeError. -/
def docResponsePath (body : Json) : Except PyError Json := do
  let e0 ← body.index 0
  let tr ← e0.field "translations"
  let t0 ← tr.index 0
  t0.field "text"

/-- Lines 104–126 of `app.py`: POST `[{"text": text}]`; if the status is
exactly 200, extract the text along `docResponsePath`; otherwise raise
`Exception(f"Translation error: {response.status_code}")`. The source and
target language codes only enter the query parameters. -/
def DocumentsTranslator.translate_text (text : PyStr)
    (source_language target_language : String)
    (send : Json → PostOutcome) : Except PyError Json :=
  match send (docRequestBody text) with
  | .failure => .error .connectionError
  | .response status body =>
    if status = 200 then docResponsePath body
    else .error (.translationError status)

/-! ## UTF-8 encoding (line 213: `translation.encode("utf-8")`) -/

/-- Standard UTF-8 encoding of one Unicode scalar value, as performed by
Python `str.encode("utf-8")` on each character. -/
def utf8EncodeCodePoint (n : Nat) : List Nat :=
  if n < 0x80 then [n]
  else if n < 0x800 then [0xC0 + n / 64, 0x80 + n % 64]
  else if n < 0x10000 then
    [0xE0 + n / 4096, 0x80 + n / 64 % 64, 0x80 + n % 64]
  else
    [0xF0 + n / 262144, 0x80 + n / 4096 % 64, 0x80 + n / 64 % 64,
     0x80 + n % 64]

/-- Python `s.encode("utf-8")`: the concatenated UTF-8 encodings of the
characters of `s`. -/
def pyEncodeUtf8 (s : PyStr) : List Nat :=
  s.bind (fun c => utf8EncodeCodePoint c.toNat)

/-- Parsing of one UTF-8-encoded scalar value from the front of a byte
list, as performed by Python `bytes.decode("utf-8")`: returns the decoded
value and the remaining bytes, or `none` on a stray or missing
continuation byte, an overlong form, a surrogate, or a value beyond
U+10FFFF. -/
def utf8ParseOne : List Nat → Option (Nat × List Nat)
  | [] => none
  | b0 :: rest =>
    if b0 < 0x80 then some (b0, rest)
    else if b0 < 0xC0 then none
    else if b0 < 0xE0 then
      match rest with
      | b1 :: rest1 =>
        if (0x80 ≤ b1 ∧ b1 < 0xC0)
            ∧ 0x80 ≤ (b0 - 0xC0) * 64 + (b1 - 0x80) then
          some ((b0 - 0xC0) * 64 + (b1 - 0x80), rest1)
        else none
      | _ => none
    else if b0 < 0xF0 then
      match rest with
      | b1 :: b2 :: rest2 =>
        if ((0x80 ≤ b1 ∧ b1 < 0xC0) ∧ (0x80 ≤ b2 ∧ b2 < 0xC0))
            ∧ (0x800 ≤ (b0 - 0xE0) * 4096 + (b1 - 0x80) * 64 + (b2 - 0x80)
              ∧ ¬(0xD800 ≤ (b0 - 0xE0) * 4096 + (b1 - 0x80) * 64 + (b2 - 0x80)
                ∧ (b0 - 0xE0) * 4096 + (b1 - 0x80) * 64 + (b2 - 0x80)
                  < 0xE000)) then
          some ((b0 - 0xE0) * 4096 + (b1 - 0x80) * 64 + (b2 - 0x80), rest2)
        else none
      | _ => none
    else if b0 < 0xF8 then
      match rest with
      | b1 :: b2 :: b3 :: rest3 =>
        if ((0x80 ≤ b1 ∧ b1 < 0xC0) ∧ (0x80 ≤ b2 ∧ b2 < 0xC0)
              ∧ (0x80 ≤ b3 ∧ b3 < 0xC0))
            ∧ (0x10000 ≤ (b0 - 0xF0) * 262144 + (b1 - 0x80) * 4096
                + (b2 - 0x80) * 64 + (b3 - 0x80)
              ∧ (b0 - 0xF0) * 262144 + (b1 - 0x80) * 4096
                + (b2 - 0x80) * 64 + (b3 - 0x80) < 0x110000) then
          some ((b0 - 0xF0) * 262144 + (b1 - 0x80) * 4096
            + (b2 - 0x80) * 64 + (b3 - 0x80), rest3)
        else none
      | _ => none
    else none

/-- The decoding loop, with an explicit fuel bound on the number of
decoded scalar values (each parsed value consumes at least one byte, so
the byte count is enough fuel). -/
def utf8DecodeAux : Nat → List Nat → Option (List Nat)
  | _, [] => some []
  | 0, _ :: _ => none
  | fuel + 1, b0 :: rest =>
    match utf8ParseOne (b0 :: rest) with
    | some nr => (utf8DecodeAux fuel nr.2).map (nr.1 :: ·)
    | none => none

/-- Standard UTF-8 decoding to Unicode scalar values, as performed by
Python `bytes.decode("utf-8")`: repeatedly parse one encoded value;
rejects stray or missing continuation bytes, overlong forms, surrogates,
and values beyond U+10FFFF. -/
def utf8DecodeCodePoints (bs : List Nat) : Option (List Nat) :=
  utf8DecodeAux bs.length bs

/-- Python `bytes.decode("utf-8")`, producing a string from the decoded
scalar values. -/
def pyDecodeUtf8 (bs : List Nat) : Option PyStr :=
  (utf8DecodeCodePoints bs).map (List.map Char.ofNat)

/-- Python attribute access used after translation: calling a `str` method
(`.split`, `.encode`) on the value requires it to be a string; on any other
value Python raises `AttributeError`. -/
def asPyStr : Json → Except PyError PyStr
  | .str s => .ok s
  | _ => .error .attributeError

/-! ## Pipeline orchestrators (lines 200–219 and 266–306) -/

/-- The external world of one article-pipeline invocation: the outcome of
the `requests.get` on the article URL and, for each posted JSON payload,
the outcome of the `requests.post` to the completion endpoint. -/
structure ArticleEnv where
  fetch : FetchOutcome
  send : Json → PostOutcome

/-- Lines 200–219 of `app.py`, the pipeline inside the `try` block:
extract the article text, translate it, and produce the downloadable
artifact `translation.encode("utf-8")`. Any exception aborts the block
and reaches the `except` clause, which only displays the error: no
artifact is delivered. -/
def runArticlePipeline (env : ArticleEnv) (target_language : PyStr) :
    Except PyError (PyStr × List Nat) := do
  let text ← ArticlesTranslator.extract_text env.fetch
  let translationJson ←
    ArticlesTranslator.translate_text text target_language env.send
  let translation ← asPyStr translationJson
  pure (translation, pyEncodeUtf8 translation)

/-- The external world of one document-pipeline invocation: the result of
`Document(file)` (a parsed document, or `parseError` on an invalid byte
stream) and, for each posted JSON body, the outcome of the `requests.post`
to the phrase-translation endpoint. -/
structure DocumentEnv where
  parse : Except PyError PyDocument
  send : Json → PostOutcome

/-- Lines 266–306 of `app.py`, the pipeline inside the `try` block: load
the document, join its paragraph texts with newlines, translate the joined
blob, and rebuild a document with one paragraph per line of the
translation. Any exception aborts the block and reaches the `except`
clause, which only displays the error: no artifact is delivered. -/
def runDocumentPipeline (env : DocumentEnv)
    (source_language target_language : String) :
    Except PyError (PyStr × PyDocument) := do
  let doc ← env.parse
  let original_text := pyJoinNl (extractParagraphTexts doc)
  let translationJson ← DocumentsTranslator.translate_text original_text
    source_language target_language env.send
  let translation ← asPyStr translationJson
  pure (original_text, buildTranslatedDoc translation)

/-! ## Helper lemmas -/

theorem pySplitNl_ne_nil (s : PyStr) : pySplitNl s ≠ [] := by
  cases s with
  | nil => simp [pySplitNl]
  | cons c cs =>
    by_cases h : c = '\n'
    · simp [pySplitNl, h]
    · cases hcs : pySplitNl cs with
      | nil => simp [pySplitNl, h, hcs]
      | cons l ls => simp [pySplitNl, h, hcs]

theorem pySplitNl_length (s : PyStr) :
    (pySplitNl s).length = s.count '\n' + 1 := by
  induction s with
  | nil => simp [pySplitNl]
  | cons c cs ih =>
    by_cases h : c = '\n'
    · simp [pySplitNl, h, List.count_cons, ih]
    · cases hcs : pySplitNl cs with
      | nil => exact absurd hcs (pySplitNl_ne_nil cs)
      | cons l ls =>
        rw [hcs] at ih
        simp only [List.length_cons] at ih
        simp [pySplitNl, h, hcs, List.count_cons]
        omega

theorem foldl_add_paragraph (ls : List PyStr) (d : PyDocument) :
    (ls.foldl PyDocument.add_paragraph d).paragraphs
      = d.paragraphs ++ ls.map Paragraph.mk := by
  induction ls generalizing d with
  | nil => simp
  | cons t ts ih => simp [ih, PyDocument.add_paragraph]

theorem buildTranslatedDoc_paragraphs_eq (t : PyStr) :
    (buildTranslatedDoc t).paragraphs = (pySplitNl t).map Paragraph.mk := by
  simp [buildTranslatedDoc, foldl_add_paragraph, PyDocument.new]

/-! ## Claim theorems -/

/-- C3: for every translated string, the rebuilt document has exactly as
many paragraphs as the string has newline-delimited segments, and the
`i`-th paragraph's text is the `i`-th segment, in order — empty segments
become empty paragraphs. -/
theorem buildTranslatedDoc_segments (t : PyStr) :
    (buildTranslatedDoc t).paragraphs.length = (pySplitNl t).length ∧
    ∀ i : Nat, ((buildTranslatedDoc t).paragraphs[i]?).map Paragraph.text
      = (pySplitNl t)[i]? := by
  rw [buildTranslatedDoc_paragraphs_eq]
  constructor
  · simp
  · intro i
    rw [List.getElem?_map]
    cases (pySplitNl t)[i]? <;> simp

/-- C10: for every translated string `t`, the rebuilt document has exactly
(number of newline characters in `t`) + 1 paragraphs; in particular the
empty translation yields exactly one empty paragraph, never a
zero-paragraph document. -/
theorem buildTranslatedDoc_lineCount (t : PyStr) :
    (buildTranslatedDoc t).paragraphs.length = t.count '\n' + 1 ∧
    (buildTranslatedDoc []).paragraphs = [⟨[]⟩] := by
  constructor
  · rw [buildTranslatedDoc_paragraphs_eq]
    simp [pySplitNl_length]
  · rfl

/-- C4: the document extractor returns exactly one string per paragraph,
in source order, with no filtering of blank paragraphs. -/
theorem extractParagraphTexts_ordered (d : PyDocument) :
    (extractParagraphTexts d).length = d.paragraphs.length ∧
    ∀ i : Nat, (extractParagraphTexts d)[i]?
      = (d.paragraphs[i]?).map Paragraph.text := by
  constructor
  · simp [extractParagraphTexts]
  · intro i
    simp [extractParagraphTexts]

/-- C8: for every input text and target-language label, the built request
body carries the fixed system instruction, a user instruction embedding
the literal target-language label and text, and the fixed parameters
temperature 0.9, top_p 0.95, max_tokens 900 — independent of the caller's
inputs. -/
theorem articlePayload_fixed_params (text target_language : PyStr) :
    (articlePayload text target_language).field "temperature"
      = .ok (.num (9 / 10)) ∧
    (articlePayload text target_language).field "top_p"
      = .ok (.num (95 / 100)) ∧
    (articlePayload text target_language).field "max_tokens"
      = .ok (.num 900) ∧
    ((articlePayload text target_language).field "messages"
      >>= (Json.index · 0) >>= (Json.field · "role"))
      = .ok (.str "system".data) ∧
    ((articlePayload text target_language).field "messages"
      >>= (Json.index · 0) >>= (Json.field · "content")
      >>= (Json.index · 0) >>= (Json.field · "text"))
      = .ok (.str "You act as a text translator".data) ∧
    ((articlePayload text target_language).field "messages"
      >>= (Json.index · 1) >>= (Json.field · "role"))
      = .ok (.str "user".data) ∧
    ((articlePayload text target_language).field "messages"
      >>= (Json.index · 1) >>= (Json.field · "content")
      >>= (Json.index · 0) >>= (Json.field · "text"))
      = .ok (.str ("translate: ".data ++ text ++ " to ".data
          ++ target_language
          ++ " language and respond only with the translation in markdown format".data)) := by
  exact ⟨rfl, rfl, rfl, rfl, rfl, rfl, rfl⟩

mutual
theorem nodeTexts_scrubNode : ∀ n : HNode, isScriptOrStyle n = false →
    nodeTexts (scrubNode n) = specVisibleNode n
  | .text _, _ => rfl
  | .elem tag cs, h => by
    have htag : ¬(tag = "script" ∨ tag = "style") := by
      simpa [isScriptOrStyle] using h
    simp [scrubNode, nodeTexts, specVisibleNode, htag,
      forestTexts_scrubForest cs]
theorem forestTexts_scrubForest : ∀ f : HForest,
    forestTexts (scrubForest f) = specVisibleForest f
  | .nil => rfl
  | .cons n f => by
    by_cases h : isScriptOrStyle n = true
    · cases n with
      | text s => simp [isScriptOrStyle] at h
      | elem tag cs =>
        have htag : tag = "script" ∨ tag = "style" := by
          simpa [isScriptOrStyle] using h
        simp [scrubForest, h, specVisibleForest, specVisibleNode, htag,
          forestTexts_scrubForest f]
    · simp [scrubForest, h, forestTexts, specVisibleForest,
        forestTexts_scrubForest f,
        nodeTexts_scrubNode n (by simpa using h)]
end

/-- C5: for every HTML input, the extractor's output is exactly the
remaining visible text nodes — those outside any script or style element —
each stripped, the whitespace-only ones dropped, joined with single
spaces; and the spec-side visible-text collection assigns no text at all
to a script or style element, so their contents never enter the output. -/
theorem extractHtmlText_visible_spec (doc : HForest) (cs : HForest) :
    extractHtmlText doc
      = List.intercalate [' ']
          (((specVisibleForest doc).map pyStrip).filter (· ≠ [])) ∧
    specVisibleNode (.elem "script" cs) = [] ∧
    specVisibleNode (.elem "style" cs) = [] := by
  refine ⟨?_, by simp [specVisibleNode], by simp [specVisibleNode]⟩
  simp [extractHtmlText, soupGetTextStrip, forestTexts_scrubForest doc]

/-- C7 counterexample: a 304 response is not a 2xx success, yet
`extract_text` returns a string instead of failing — `raise_for_status`
only raises for statuses in 400–599. -/
theorem articlesExtract_304_cex :
    ArticlesTranslator.extract_text (.response 304 .nil) = .ok []
      ∧ ¬(200 ≤ 304 ∧ 304 < 300) := by
  exact ⟨rfl, by decide⟩

/-- C7 (amended): `extract_text` returns the extracted string for every
response whose status is outside 400–599 (including all 2xx responses),
fails with the `requests.HTTPError` carrying the status for a 4xx/5xx
response, and fails with the propagated `RequestException` on a network
failure — each failure is re-raised to the caller unchanged. -/
theorem articlesExtract_status_spec (status : Nat) (doc : HForest) :
    (¬(400 ≤ status ∧ status < 600) →
      ArticlesTranslator.extract_text (.response status doc)
        = .ok (extractHtmlText doc)) ∧
    (400 ≤ status ∧ status < 600 →
      ArticlesTranslator.extract_text (.response status doc)
        = .error (.httpError status)) ∧
    ArticlesTranslator.extract_text .failure = .error .connectionError := by
  refine ⟨?_, ?_, rfl⟩
  · intro h
    simp [ArticlesTranslator.extract_text, h]
  · intro h
    simp [ArticlesTranslator.extract_text, h]

/-- C7 witness: a 404 response fails with the HTTP error carrying 404. -/
theorem articlesExtract_status_spec_witness :
    ArticlesTranslator.extract_text (.response 404 .nil)
      = .error (.httpError 404) :=
  (articlesExtract_status_spec 404 .nil).2.1 (by decide)

theorem except_bind_error_cases {α β : Type} {x : Except PyError α}
    {f : α → Except PyError β} {e : PyError}
    (h : (x >>= f) = .error e) :
    x = .error e ∨ ∃ a, x = .ok a ∧ f a = .error e := by
  cases x with
  | error e2 =>
    left
    simpa [Bind.bind, Except.bind] using h
  | ok a =>
    right
    exact ⟨a, rfl, by simpa [Bind.bind, Except.bind] using h⟩

theorem json_index_error {j : Json} {i : Nat} {e : PyError}
    (h : Json.index j i = .error e) : e.isSubscriptError = true := by
  cases j with
  | arr items =>
    rw [Json.index] at h
    cases hg : items.get? i with
    | some x => rw [hg] at h; exact absurd h (by simp)
    | none =>
      rw [hg] at h
      simp only [Except.error.injEq] at h
      rw [← h]
      rfl
  | null => simp only [Json.index, Except.error.injEq] at h; rw [← h]; rfl
  | bool b => simp only [Json.index, Except.error.injEq] at h; rw [← h]; rfl
  | num q => simp only [Json.index, Except.error.injEq] at h; rw [← h]; rfl
  | str s => simp only [Json.index, Except.error.injEq] at h; rw [← h]; rfl
  | obj fields => simp only [Json.index, Except.error.injEq] at h; rw [← h]; rfl

theorem json_field_error {j : Json} {k : String} {e : PyError}
    (h : Json.field j k = .error e) : e.isSubscriptError = true := by
  cases j with
  | obj fields =>
    rw [Json.field] at h
    cases hg : fields.lookup k with
    | some v => rw [hg] at h; exact absurd h (by simp)
    | none =>
      rw [hg] at h
      simp only [Except.error.injEq] at h
      rw [← h]
      rfl
  | null => simp only [Json.field, Except.error.injEq] at h; rw [← h]; rfl
  | bool b => simp only [Json.field, Except.error.injEq] at h; rw [← h]; rfl
  | num q => simp only [Json.field, Except.error.injEq] at h; rw [← h]; rfl
  | str s => simp only [Json.field, Except.error.injEq] at h; rw [← h]; rfl
  | arr items => simp only [Json.field, Except.error.injEq] at h; rw [← h]; rfl

theorem docResponsePath_error {body : Json} {e : PyError}
    (h : docResponsePath body = .error e) : e.isSubscriptError = true := by
  unfold docResponsePath at h
  rcases except_bind_error_cases h with h1 | ⟨a, _, h2⟩
  · exact json_index_error h1
  rcases except_bind_error_cases h2 with h3 | ⟨b, _, h4⟩
  · exact json_field_error h3
  rcases except_bind_error_cases h4 with h5 | ⟨c, _, h6⟩
  · exact json_index_error h5
  exact json_field_error h6

theorem articleResponsePath_error {body : Json} {e : PyError}
    (h : articleResponsePath body = .error e) : e.isSubscriptError = true := by
  unfold articleResponsePath at h
  rcases except_bind_error_cases h with h1 | ⟨a, _, h2⟩
  · exact json_field_error h1
  rcases except_bind_error_cases h2 with h3 | ⟨b, _, h4⟩
  · exact json_index_error h3
  rcases except_bind_error_cases h4 with h5 | ⟨c, _, h6⟩
  · exact json_field_error h5
  exact json_field_error h6

/-- C1 counterexample: a 200 response whose body is an empty array lacks
the expected shape; the phrase-translation client then raises an
IndexError from the subscript chain, not the `Translation error`
exception. -/
theorem documentsTranslate_malformed_cex :
    DocumentsTranslator.translate_text "Hello".data "en" "pt"
        (fun _ => .response 200 (.arr [])) = .error .indexError ∧
    PyError.isTranslationError .indexError = false := by
  exact ⟨rfl, rfl⟩

/-- C1 (amended): when the response status is not exactly 200 the client
raises the `Translation error` exception carrying that status; when the
status is 200 it returns the value extracted along
`response.json()[0]["translations"][0]["text"]`; when that shape is
absent, the extraction raises a subscripting error (IndexError, KeyError
or TypeError), which is not the `Translation error` kind. -/
theorem documentsTranslate_spec (text : PyStr) (src tgt : String)
    (send : Json → PostOutcome) (status : Nat) (body : Json)
    (hsend : send (docRequestBody text) = .response status body) :
    (status ≠ 200 →
      DocumentsTranslator.translate_text text src tgt send
        = .error (.translationError status)) ∧
    (status = 200 →
      DocumentsTranslator.translate_text text src tgt send
        = docResponsePath body) ∧
    (∀ (v : Json) (ts ms : List Json),
      docResponsePath (.arr (.obj [("translations",
        .arr (.obj [("text", v)] :: ts))] :: ms)) = .ok v) ∧
    (∀ e, docResponsePath body = .error e →
      e.isSubscriptError = true ∧ e.isTranslationError = false) := by
  refine ⟨?_, ?_, ?_, ?_⟩
  · intro h
    simp [DocumentsTranslator.translate_text, hsend, h]
  · intro h
    simp [DocumentsTranslator.translate_text, hsend, h]
  · intro v ts ms
    rfl
  · intro e he
    have hs := docResponsePath_error he
    refine ⟨hs, ?_⟩
    cases e <;> simp_all [PyError.isSubscriptError, PyError.isTranslationError]

/-- C1 witness: a 201 response yields the `Translation error` exception
carrying status 201. -/
theorem documentsTranslate_spec_witness :
    DocumentsTranslator.translate_text "x".data "en" "fr"
        (fun _ => .response 201 .null) = .error (.translationError 201) :=
  (documentsTranslate_spec "x".data "en" "fr"
    (fun _ => .response 201 .null) 201 .null rfl).1 (by decide)

/-- C2 counterexample: a 200 response whose body is an empty object lacks
the expected shape; the generative client then raises
`KeyError("choices")`, which carries no HTTP status. -/
theorem articlesTranslate_malformed_cex :
    ArticlesTranslator.translate_text "Hi".data "english".data
        (fun _ => .response 200 (.obj [])) = .error (.keyError "choices") ∧
    PyError.carriesHttpStatus (.keyError "choices") = false := by
  exact ⟨rfl, rfl⟩

/-- C2 (amended): on a 4xx/5xx response the client raises the
`requests.HTTPError` carrying the status (logged and re-raised
unchanged); on any other response it returns the value extracted along
`response.json()["choices"][0]["message"]["content"]` — in particular,
on a well-shaped body, exactly the content of the first completion
choice; when the shape is absent the extraction raises a subscripting
error (KeyError, IndexError or TypeError), which carries no HTTP
status. -/
theorem articlesTranslate_spec (text target_language : PyStr)
    (send : Json → PostOutcome) (status : Nat) (body : Json)
    (hsend : send (articlePayload text target_language)
      = .response status body) :
    (400 ≤ status ∧ status < 600 →
      ArticlesTranslator.translate_text text target_language send
        = .error (.httpError status)) ∧
    (¬(400 ≤ status ∧ status < 600) →
      ArticlesTranslator.translate_text text target_language send
        = articleResponsePath body) ∧
    (∀ (s : PyStr) (ms : List Json),
      articleResponsePath (.obj [("choices",
        .arr (.obj [("message", .obj [("content", .str s)])] :: ms))])
        = .ok (.str s)) ∧
    (∀ e, articleResponsePath body = .error e →
      e.isSubscriptError = true ∧ e.carriesHttpStatus = false) := by
  refine ⟨?_, ?_, ?_, ?_⟩
  · intro h
    simp [ArticlesTranslator.translate_text, hsend, h]
  · intro h
    simp [ArticlesTranslator.translate_text, hsend, h]
  · intro s ms
    rfl
  · intro e he
    have hs := articleResponsePath_error he
    refine ⟨hs, ?_⟩
    cases e <;> simp_all [PyError.isSubscriptError, PyError.carriesHttpStatus]

/-- C2 witness: a 429 response yields the HTTP error carrying status
429. -/
theorem articlesTranslate_spec_witness :
    ArticlesTranslator.translate_text "a".data "english".data
        (fun _ => .response 429 .null) = .error (.httpError 429) :=
  (articlesTranslate_spec "a".data "english".data
    (fun _ => .response 429 .null) 429 .null rfl).1 (by decide)

/-- C6: if any stage of either pipeline fails, the whole invocation
evaluates to that stage's error — the remaining stages are skipped and no
artifact (in particular no partially built or partially translated one)
is delivered to the caller. -/
theorem pipeline_failure_aborts (aenv : ArticleEnv) (denv : DocumentEnv)
    (target_label : PyStr) (src tgt : String) (e : PyError) :
    (ArticlesTranslator.extract_text aenv.fetch = .error e →
      runArticlePipeline aenv target_label = .error e) ∧
    (∀ text, ArticlesTranslator.extract_text aenv.fetch = .ok text →
      ArticlesTranslator.translate_text text target_label aenv.send
        = .error e →
      runArticlePipeline aenv target_label = .error e) ∧
    (denv.parse = .error e →
      runDocumentPipeline denv src tgt = .error e) ∧
    (∀ doc, denv.parse = .ok doc →
      DocumentsTranslator.translate_text
          (pyJoinNl (extractParagraphTexts doc)) src tgt denv.send
        = .error e →
      runDocumentPipeline denv src tgt = .error e) := by
  refine ⟨?_, ?_, ?_, ?_⟩
  · intro h
    simp [runArticlePipeline, h, Bind.bind, Except.bind]
  · intro text h1 h2
    simp [runArticlePipeline, h1, h2, Bind.bind, Except.bind]
  · intro h
    simp [runDocumentPipeline, h, Bind.bind, Except.bind]
  · intro doc h1 h2
    simp [runDocumentPipeline, h1, h2, Bind.bind, Except.bind]

/-- C6 witness: with a failing fetch, the article pipeline evaluates to
that network error and delivers nothing. -/
theorem pipeline_failure_aborts_witness :
    runArticlePipeline ⟨.failure, fun _ => .failure⟩ []
      = .error .connectionError :=
  (pipeline_failure_aborts ⟨.failure, fun _ => .failure⟩
    ⟨.error .parseError, fun _ => .failure⟩ [] "en" "pt"
    .connectionError).1 rfl

theorem char_toNat_valid (c : Char) :
    c.toNat < 0xD800 ∨ (0xE000 ≤ c.toNat ∧ c.toNat < 0x110000) := by
  have h := c.valid
  simp only [UInt32.isValidChar, Nat.isValidChar] at h
  have he : c.toNat = c.val.toNat := rfl
  omega

theorem utf8ParseOne_encode (n : Nat)
    (hv : n < 0xD800 ∨ (0xE000 ≤ n ∧ n < 0x110000)) (rest : List Nat) :
    utf8ParseOne (utf8EncodeCodePoint n ++ rest) = some (n, rest) := by
  by_cases h1 : n < 0x80
  · have henc : utf8EncodeCodePoint n = [n] := by
      rw [utf8EncodeCodePoint, if_pos h1]
    rw [henc]
    show utf8ParseOne (n :: rest) = _
    unfold utf8ParseOne
    simp only []
    rw [if_pos h1]
  · by_cases h2 : n < 0x800
    · have henc : utf8EncodeCodePoint n = [0xC0 + n / 64, 0x80 + n % 64] := by
        rw [utf8EncodeCodePoint, if_neg h1, if_pos h2]
      rw [henc]
      show utf8ParseOne ((0xC0 + n / 64) :: (0x80 + n % 64) :: rest) = _
      unfold utf8ParseOne
      simp only []
      rw [if_neg (by omega), if_neg (by omega), if_pos (by omega)]
      rw [if_pos ⟨⟨by omega, by omega⟩, by omega⟩]
      have hn : (0xC0 + n / 64 - 0xC0) * 64 + (0x80 + n % 64 - 0x80) = n := by
        omega
      rw [hn]
    · by_cases h3 : n < 0x10000
      · have henc : utf8EncodeCodePoint n
            = [0xE0 + n / 4096, 0x80 + n / 64 % 64, 0x80 + n % 64] := by
          rw [utf8EncodeCodePoint, if_neg h1, if_neg h2, if_pos h3]
        rw [henc]
        show utf8ParseOne ((0xE0 + n / 4096)
          :: (0x80 + n / 64 % 64) :: (0x80 + n % 64) :: rest) = _
        unfold utf8ParseOne
        simp only []
        rw [if_neg (by omega), if_neg (by omega), if_neg (by omega),
          if_pos (by omega)]
        rw [if_pos ⟨⟨⟨by omega, by omega⟩, by omega, by omega⟩,
          by omega, by omega⟩]
        have hn : (0xE0 + n / 4096 - 0xE0) * 4096
            + (0x80 + n / 64 % 64 - 0x80) * 64 + (0x80 + n % 64 - 0x80)
            = n := by omega
        rw [hn]
      · have henc : utf8EncodeCodePoint n
            = [0xF0 + n / 262144, 0x80 + n / 4096 % 64, 0x80 + n / 64 % 64,
               0x80 + n % 64] := by
          rw [utf8EncodeCodePoint, if_neg h1, if_neg h2, if_neg h3]
        rw [henc]
        show utf8ParseOne ((0xF0 + n / 262144)
          :: (0x80 + n / 4096 % 64) :: (0x80 + n / 64 % 64)
          :: (0x80 + n % 64) :: rest) = _
        unfold utf8ParseOne
        simp only []
        rw [if_neg (by omega), if_neg (by omega), if_neg (by omega),
          if_neg (by omega), if_pos (by omega)]
        rw [if_pos ⟨⟨⟨by omega, by omega⟩, ⟨by omega, by omega⟩,
          by omega, by omega⟩, by omega, by omega⟩]
        have hn : (0xF0 + n / 262144 - 0xF0) * 262144
            + (0x80 + n / 4096 % 64 - 0x80) * 4096
            + (0x80 + n / 64 % 64 - 0x80) * 64 + (0x80 + n % 64 - 0x80)
            = n := by omega
        rw [hn]

theorem utf8EncodeCodePoint_ne_nil (n : Nat) : utf8EncodeCodePoint n ≠ [] := by
  rw [utf8EncodeCodePoint]
  split_ifs <;> simp

theorem utf8DecodeAux_encode (s : PyStr) (extra : Nat) :
    utf8DecodeAux ((pyEncodeUtf8 s).length + extra) (pyEncodeUtf8 s)
      = some (s.map Char.toNat) := by
  induction s generalizing extra with
  | nil =>
    show utf8DecodeAux ((pyEncodeUtf8 []).length + extra) (pyEncodeUtf8 [])
      = some []
    have hnil : pyEncodeUtf8 [] = [] := rfl
    rw [hnil]
    cases extra <;> rfl
  | cons c cs ih =>
    have hsplit : pyEncodeUtf8 (c :: cs)
        = utf8EncodeCodePoint c.toNat ++ pyEncodeUtf8 cs := by
      simp [pyEncodeUtf8]
    have hp := utf8ParseOne_encode c.toNat (char_toNat_valid c)
      (pyEncodeUtf8 cs)
    cases henc : utf8EncodeCodePoint c.toNat with
    | nil => exact absurd henc (utf8EncodeCodePoint_ne_nil c.toNat)
    | cons b0 ebs =>
      rw [hsplit, henc, List.cons_append]
      have hlen : (b0 :: (ebs ++ pyEncodeUtf8 cs)).length + extra
          = ((pyEncodeUtf8 cs).length + (ebs.length + extra)) + 1 := by
        simp [List.length_append]
        omega
      rw [hlen]
      simp only [utf8DecodeAux]
      rw [show utf8ParseOne (b0 :: (ebs ++ pyEncodeUtf8 cs))
          = some (c.toNat, pyEncodeUtf8 cs) from by
        rw [← List.cons_append, ← henc]
        exact hp]
      simp only []
      rw [ih (ebs.length + extra)]
      rfl

theorem utf8Decode_pyEncode (s : PyStr) :
    utf8DecodeCodePoints (pyEncodeUtf8 s) = some (s.map Char.toNat) := by
  have h := utf8DecodeAux_encode s 0
  simpa [utf8DecodeCodePoints] using h

/-- C9: encoding a translated string as the markdown artifact's UTF-8
bytes and decoding those bytes back as UTF-8 yields the original string
exactly. -/
theorem markdown_utf8_roundtrip (translation : PyStr) :
    pyDecodeUtf8 (pyEncodeUtf8 translation) = some translation := by
  rw [pyDecodeUtf8, utf8Decode_pyEncode]
  simp [List.map_map, Function.comp_def, Char.ofNat_toNat]
